import Mathlib

/-!
# Verification of the Riot API client core (`dags/riot.py`, `dags/lol.py`)

Shallow embedding of the API-client core of the repository:

* `RiotApiClient._get` — the retry loop over HTTP responses (riot.py lines 98-117),
  modelled as a function over a response oracle (one response per attempt),
  returning the parsed payload or a typed failure together with the observable
  trace (number of GET attempts, list of cooldown sleeps).
* The pydantic entity models (`LeagueEntry`, `Summoner`, `Participant`,
  `MatchInfo`, `MatchMetadata`, `Match`) with `model_validate` /
  `model_dump(by_alias=True)` over a small JSON value type, using the
  `to_camel` alias generator exactly as the source configures it.
* The domain operations `get_challenger_league`, `get_summoner_by_id`,
  `get_top_players`, `get_match_ids_by_puuid`, `get_match`,
  `get_matches_for_summoners` (riot.py lines 119-157), with `asyncio.gather`
  modelled as a deterministic fan-in over a list of `Except` results.
* The caller-side dedup pass `combine_matches` (lol.py lines 42-51).

Numeric JSON values are modelled as `Int` (Python ints are unbounded; the one
`float`-annotated field, `vision_score`, carries integer values on the wire and
is modelled with the same exact-equality semantics, NaN excluded).  The
`datetime`-annotated field `game_creation` is modelled as its epoch timestamp:
pydantic datetime equality is equality of instants.
-/

/-- JSON values as delivered by the API (floats restricted to integral values,
see module comment). -/
inductive Json where
  | str (s : String)
  | num (n : Int)
  | bool (b : Bool)
  | arr (elems : List Json)
  | obj (fields : List (String × Json))

namespace Json

/-- The keys of a JSON object (empty for non-objects). -/
def objKeys : Json → List String
  | .obj fields => fields.map Prod.fst
  | _ => []

/-- Python `dict.get(key, default)`: `none` models the `AttributeError` raised
when the receiver is not a dict. -/
def dictGetD (j : Json) (key : String) (default : Json) : Option Json :=
  match j with
  | .obj fields =>
    match fields.lookup key with
    | some v => some v
    | none => some default
  | _ => none

/-- Look up a required string field. -/
def lookupStr (fields : List (String × Json)) (key : String) : Option String :=
  match fields.lookup key with
  | some (.str s) => some s
  | _ => none

/-- Look up a required integer field. -/
def lookupInt (fields : List (String × Json)) (key : String) : Option Int :=
  match fields.lookup key with
  | some (.num n) => some n
  | _ => none

/-- Look up an integer field with a default (pydantic field default): an absent
key yields the default, a present key must hold a number. -/
def lookupIntD (fields : List (String × Json)) (key : String) (default : Int) :
    Option Int :=
  match fields.lookup key with
  | some (.num n) => some n
  | some _ => none
  | none => some default

/-- Look up a required boolean field. -/
def lookupBool (fields : List (String × Json)) (key : String) : Option Bool :=
  match fields.lookup key with
  | some (.bool b) => some b
  | _ => none

end Json

/-! ## Entity models (riot.py lines 20-71)

Field names keep the source's snake_case; the wire aliases produced by
`alias_generator=to_camel` are written out explicitly in each
`model_validate` / `model_dump`. -/

/-- `LeagueEntry(BaseModel)`: `summoner_id`, `league_points`, `wins = 0`,
`losses = 0`, camelCase aliases. -/
structure LeagueEntry where
  summoner_id : String
  league_points : Int
  wins : Int
  losses : Int
deriving DecidableEq, Repr

/-- `Summoner(BaseModel)`: `id`, `account_id`, `puuid`, `summoner_level`. -/
structure Summoner where
  id : String
  account_id : String
  puuid : String
  summoner_level : Int
deriving DecidableEq, Repr

/-- `Participant(BaseModel)` (riot.py lines 36-49). -/
structure Participant where
  puuid : String
  champion_id : Int
  champion_name : String
  win : Bool
  kills : Int
  deaths : Int
  assists : Int
  total_damage_dealt_to_champions : Int
  gold_earned : Int
  vision_score : Int
  total_minions_killed : Int
deriving DecidableEq, Repr

/-- `MatchInfo(BaseModel)` (riot.py lines 51-60); `game_creation` as epoch
timestamp. -/
structure MatchInfo where
  game_creation : Int
  game_duration : Int
  game_mode : String
  game_type : String
  game_version : String
  map_id : Int
  participants : List Participant
deriving DecidableEq, Repr

/-- `MatchMetadata(BaseModel)` (riot.py lines 62-67). -/
structure MatchMetadata where
  data_version : Int
  match_id : String
  participants : List String
deriving DecidableEq, Repr

/-- `Match(BaseModel)`: one metadata, one info.  pydantic equality is full
structural equality of all fields, which `DecidableEq` mirrors. -/
structure Match where
  metadata : MatchMetadata
  info : MatchInfo
deriving DecidableEq, Repr

/-- `LeagueEntry.model_validate`: requires the camelCase aliases
`summonerId` and `leaguePoints`; `wins`/`losses` default to 0 when absent.
Extra keys are ignored (pydantic default `extra='ignore'`). -/
def LeagueEntry.model_validate (j : Json) : Option LeagueEntry :=
  match j with
  | .obj fields =>
    match Json.lookupStr fields "summonerId", Json.lookupInt fields "leaguePoints",
        Json.lookupIntD fields "wins" 0, Json.lookupIntD fields "losses" 0 with
    | some s, some lp, some w, some l => some ⟨s, lp, w, l⟩
    | _, _, _, _ => none
  | _ => none

/-- `model_dump(by_alias=True)` for `LeagueEntry`: every field is emitted under
its camelCase alias, defaults included. -/
def LeagueEntry.model_dump (e : LeagueEntry) : Json :=
  .obj [("summonerId", .str e.summoner_id), ("leaguePoints", .num e.league_points),
    ("wins", .num e.wins), ("losses", .num e.losses)]

/-- `Summoner.model_validate`: all four fields required, camelCase aliases
(`id` and `puuid` are single words, unchanged by `to_camel`). -/
def Summoner.model_validate (j : Json) : Option Summoner :=
  match j with
  | .obj fields =>
    match Json.lookupStr fields "id", Json.lookupStr fields "accountId",
        Json.lookupStr fields "puuid", Json.lookupInt fields "summonerLevel" with
    | some i, some a, some p, some lv => some ⟨i, a, p, lv⟩
    | _, _, _, _ => none
  | _ => none

/-- `model_dump(by_alias=True)` for `Summoner`. -/
def Summoner.model_dump (s : Summoner) : Json :=
  .obj [("id", .str s.id), ("accountId", .str s.account_id),
    ("puuid", .str s.puuid), ("summonerLevel", .num s.summoner_level)]

/-- `Participant.model_validate` (all fields required). -/
def Participant.model_validate (j : Json) : Option Participant :=
  match j with
  | .obj fields =>
    match Json.lookupStr fields "puuid", Json.lookupInt fields "championId",
        Json.lookupStr fields "championName", Json.lookupBool fields "win",
        Json.lookupInt fields "kills", Json.lookupInt fields "deaths",
        Json.lookupInt fields "assists" with
    | some pu, some cid, some cn, some w, some k, some d, some a =>
      match Json.lookupInt fields "totalDamageDealtToChampions",
          Json.lookupInt fields "goldEarned", Json.lookupInt fields "visionScore",
          Json.lookupInt fields "totalMinionsKilled" with
      | some dmg, some g, some v, some cs => some ⟨pu, cid, cn, w, k, d, a, dmg, g, v, cs⟩
      | _, _, _, _ => none
    | _, _, _, _, _, _, _ => none
  | _ => none

/-- `MatchInfo.model_validate` (participants validated element-wise). -/
def MatchInfo.model_validate (j : Json) : Option MatchInfo :=
  match j with
  | .obj fields =>
    match Json.lookupInt fields "gameCreation", Json.lookupInt fields "gameDuration",
        Json.lookupStr fields "gameMode", Json.lookupStr fields "gameType",
        Json.lookupStr fields "gameVersion", Json.lookupInt fields "mapId",
        fields.lookup "participants" with
    | some gc, some gd, some gm, some gt, some gv, some mid, some (.arr ps) =>
      match ps.mapM Participant.model_validate with
      | some parts => some ⟨gc, gd, gm, gt, gv, mid, parts⟩
      | none => none
    | _, _, _, _, _, _, _ => none
  | _ => none

/-- `MatchMetadata.model_validate`. -/
def MatchMetadata.model_validate (j : Json) : Option MatchMetadata :=
  match j with
  | .obj fields =>
    match Json.lookupInt fields "dataVersion", Json.lookupStr fields "matchId",
        fields.lookup "participants" with
    | some dv, some mid, some (.arr ps) =>
      match ps.mapM (fun p => match p with | .str s => some s | _ => none) with
      | some puuids => some ⟨dv, mid, puuids⟩
      | none => none
    | _, _, _ => none
  | _ => none

/-- `Match.model_validate`: requires the `metadata` and `info` keys (the `Match`
model has no alias configuration; both names are single words). -/
def Match.model_validate (j : Json) : Option Match :=
  match j with
  | .obj fields =>
    match fields.lookup "metadata", fields.lookup "info" with
    | some md, some inf =>
      match MatchMetadata.model_validate md, MatchInfo.model_validate inf with
      | some m, some i => some ⟨m, i⟩
      | _, _ => none
    | _, _ => none
  | _ => none

/-! ## Transport layer (riot.py lines 73-117) -/

/-- `Region.NORTH_AMERICA.value`, the default `region`. -/
def Region.NORTH_AMERICA : String := "na1"

/-- `RoutingValue.AMERICAS.value`, the default `routing`. -/
def RoutingValue.AMERICAS : String := "americas"

/-- `Queue.RANKED_SOLO.value`, the default `queue`. -/
def Queue.RANKED_SOLO : String := "RANKED_SOLO_5x5"

/-- The configuration a `RiotApiClient` is constructed with (riot.py
lines 75-87); the `X-Riot-Token` header and the `httpx.AsyncClient` carry no
call-specific state and are not modelled further. -/
structure RiotApiClient where
  api_key : String
  region : String
  routing : String
  timeout : Nat

/-- One observable outcome of issuing a GET request: an HTTP response (status
code and parsed JSON body), or a transport-level error (timeout, connection
failure — any exception other than `httpx.HTTPStatusError`). -/
inductive HttpResult where
  | response (status : Nat) (body : Json)
  | transportError (cause : String)

/-- The network as the client observes it: for each URL and query-parameter
list, the result each successive attempt at that request receives.  The
source's `params=None` default is modelled as the empty parameter list. -/
def Network := String → List (String × String) → Nat → HttpResult

/-- The typed failures `_get` can raise. -/
inductive GetError where
  | httpStatus (status : Nat) (body : Json)
  | transport (cause : String)
  | rateLimitExhausted (message : String)

/-- The result of `_get` together with its observable trace: how many
`client.get` calls were issued and the durations (in seconds) of the
`asyncio.sleep` cooldown waits. -/
structure GetOutcome where
  result : Except GetError Json
  attempts : Nat
  sleeps : List Nat

/-- `max_retries = 5` (riot.py line 100). -/
def max_retries : Nat := 5

/-- The message of the `Exception` raised when the retry loop exits
(riot.py line 117). -/
def rate_limit_message (retries : Nat) : String :=
  "Rate limit exceeded after " ++ toString retries ++ " retries"

/-- The `while retry_count < max_retries` loop of `_get` (riot.py
lines 102-117), with `fuel = max_retries - retry_count`.  Each iteration
issues one GET: a 2xx status returns the parsed body; a 429 increments the
retry counter, logs, sleeps 60 seconds and loops; any other non-2xx status
re-raises the `httpx.HTTPStatusError`; any other exception is re-raised.
Falling out of the loop raises `Exception(rate_limit_message)`. -/
def getLoop (responses : Nat → HttpResult) : Nat → Nat → GetOutcome
  | _retry_count, 0 =>
    ⟨.error (.rateLimitExhausted (rate_limit_message max_retries)), 0, []⟩
  | retry_count, fuel + 1 =>
    match responses retry_count with
    | .response status body =>
      if 200 ≤ status ∧ status < 300 then
        ⟨.ok body, 1, []⟩
      else if status = 429 then
        let rest := getLoop responses (retry_count + 1) fuel
        ⟨rest.result, rest.attempts + 1, 60 :: rest.sleeps⟩
      else
        ⟨.error (.httpStatus status body), 1, []⟩
    | .transportError cause => ⟨.error (.transport cause), 1, []⟩

/-- `RiotApiClient._get(url, params)` (riot.py lines 98-117) over a network
oracle: attempt `i` of this request receives `net url params i`. -/
def _get (net : Network) (url : String) (params : List (String × String)) :
    GetOutcome :=
  getLoop (net url params) 0 max_retries

/-! ## Domain client (riot.py lines 119-157) -/

/-- Failures of the domain operations: an exception propagated from `_get`, or
a pydantic `ValidationError` / iteration `TypeError` while decoding. -/
inductive ClientError where
  | get (e : GetError)
  | validation (message : String)

/-- `await asyncio.gather(*tasks)` with `return_exceptions=False`: when every
task succeeds, all results in task order; otherwise the whole group fails with
the first failure and no partial results are returned.  (Concurrency timing is
abstracted: "first" is task-submission order in this deterministic model.) -/
def gather {ε α : Type} : List (Except ε α) → Except ε (List α)
  | [] => .ok []
  | .error e :: _ => .error e
  | .ok a :: rest =>
    match gather rest with
    | .ok xs => .ok (a :: xs)
    | .error e => .error e

/-- `RiotApiClient.get_challenger_league` (riot.py lines 119-122):
`data.get("entries", [])`, each entry through `LeagueEntry.model_validate`. -/
def get_challenger_league (c : RiotApiClient) (net : Network)
    (queue : String) : Except ClientError (List LeagueEntry) :=
  let url := "https://" ++ c.region ++
    ".api.riotgames.com/lol/league/v4/challengerleagues/by-queue/" ++ queue
  match (_get net url []).result with
  | .error e => .error (.get e)
  | .ok data =>
    match data.dictGetD "entries" (.arr []) with
    | none => .error (.validation "AttributeError")
    | some (.arr entries) =>
      match entries.mapM LeagueEntry.model_validate with
      | some es => .ok es
      | none => .error (.validation "ValidationError")
    | some _ => .error (.validation "TypeError")

/-- `RiotApiClient.get_summoner_by_id` (riot.py lines 124-127). -/
def get_summoner_by_id (c : RiotApiClient) (net : Network)
    (summoner_id : String) : Except ClientError Summoner :=
  let url := "https://" ++ c.region ++
    ".api.riotgames.com/lol/summoner/v4/summoners/" ++ summoner_id
  match (_get net url []).result with
  | .error e => .error (.get e)
  | .ok data =>
    match Summoner.model_validate data with
    | some s => .ok s
    | none => .error (.validation "ValidationError")

/-- Insertion into a list ordered by `league_points` descending: the new entry
goes before the first element whose points do not exceed it.  Used with the
new entry coming from earlier in the original list than everything in the
target, so ties keep the original relative order. -/
def insertByPointsDesc (e : LeagueEntry) : List LeagueEntry → List LeagueEntry
  | [] => [e]
  | x :: xs =>
    if x.league_points ≤ e.league_points then e :: x :: xs
    else x :: insertByPointsDesc e xs

/-- `sorted(challenger_entries, key=lambda entry: entry.league_points,
reverse=True)` (riot.py line 131): Python's `sorted` is stable, and with
`reverse=True` it orders by key descending while ties keep their original
relative order; modelled as the stable insertion sort with that ordering. -/
def sortedByPointsDesc : List LeagueEntry → List LeagueEntry
  | [] => []
  | e :: rest => insertByPointsDesc e (sortedByPointsDesc rest)

/-- `RiotApiClient.get_top_players` (riot.py lines 129-135). -/
def get_top_players (c : RiotApiClient) (net : Network) (count : Nat) :
    Except ClientError (List Summoner) :=
  match get_challenger_league c net Queue.RANKED_SOLO with
  | .error e => .error e
  | .ok challenger_entries =>
    let sorted_entries := sortedByPointsDesc challenger_entries
    let top_entries := sorted_entries.take count
    gather (top_entries.map (fun entry =>
      get_summoner_by_id c net entry.summoner_id))

/-- `RiotApiClient.get_match_ids_by_puuid` (riot.py lines 137-140): returns the
endpoint's payload, a JSON array of match-ID strings, as `List[str]`; a payload
not matching that annotation is a decode failure here (the source would fail
downstream instead, having no validation at this boundary). -/
def get_match_ids_by_puuid (c : RiotApiClient) (net : Network)
    (puuid : String) (count : Nat) (start : Nat) :
    Except ClientError (List String) :=
  let url := "https://" ++ c.routing ++
    ".api.riotgames.com/lol/match/v5/matches/by-puuid/" ++ puuid ++ "/ids"
  let params := [("count", toString count), ("start", toString start)]
  match (_get net url params).result with
  | .error e => .error (.get e)
  | .ok (.arr ids) =>
    match ids.mapM (fun j => match j with | .str s => some s | _ => none) with
    | some ss => .ok ss
    | none => .error (.validation "TypeError")
  | .ok _ => .error (.validation "TypeError")

/-- `RiotApiClient.get_match` (riot.py lines 142-145). -/
def get_match (c : RiotApiClient) (net : Network) (match_id : String) :
    Except ClientError Match :=
  let url := "https://" ++ c.routing ++
    ".api.riotgames.com/lol/match/v5/matches/" ++ match_id
  match (_get net url []).result with
  | .error e => .error (.get e)
  | .ok data =>
    match Match.model_validate data with
    | some m => .ok m
    | none => .error (.validation "ValidationError")

/-- `list(set(xs))` over the flattened match-ID strings (riot.py line 154):
one element per distinct string.  CPython's iteration order over a set is
unspecified; it is modelled as first-occurrence order, and the claims below
use only order-independent facts about it (no duplicates, same members). -/
def pyListSet (xs : List String) : List String :=
  xs.foldl (fun acc x => if x ∈ acc then acc else acc ++ [x]) []

/-- `RiotApiClient.get_matches_for_summoners` (riot.py lines 147-157). -/
def get_matches_for_summoners (c : RiotApiClient) (net : Network)
    (summoners : List Summoner) (matches_per_summoner : Nat) :
    Except ClientError (List Match) :=
  let match_id_tasks := summoners.map (fun summoner =>
    get_match_ids_by_puuid c net summoner.puuid matches_per_summoner 0)
  match gather match_id_tasks with
  | .error e => .error e
  | .ok all_match_ids =>
    let unique_match_ids := pyListSet all_match_ids.flatten
    gather (unique_match_ids.map (fun match_id => get_match c net match_id))

/-! ## Caller-side dedup (lol.py lines 42-51) -/

/-- The dedup loop of the `combine_matches` task (lol.py lines 46-49), over the
flattened list of validated `Match` values (the `model_validate` /
`model_dump` conversions at the task boundary are serialization adapters):
each match is appended iff it is not already present, membership tested with
pydantic structural equality (`DecidableEq Match`). -/
def combine_matches (all_matches : List Match) : List Match :=
  all_matches.foldl (fun unique_matches m =>
    if m ∈ unique_matches then unique_matches else unique_matches ++ [m]) []

/-! ## Transport-layer lemmas -/

/-- Unrolling the retry loop through `k` rate-limited attempts followed by a
successful one. -/
theorem getLoop_success (responses : Nat → HttpResult) :
    ∀ (k : Nat) (r fuel : Nat), k < fuel →
    (∀ i, i < k → ∃ b, responses (r + i) = .response 429 b) →
    ∀ status body, responses (r + k) = .response status body →
    200 ≤ status → status < 300 →
    getLoop responses r fuel = ⟨.ok body, k + 1, List.replicate k 60⟩ := by
  intro k
  induction k with
  | zero =>
    intro r fuel hk _ status body hresp h200 h300
    match fuel, hk with
    | fuel + 1, _ =>
      rw [Nat.add_zero] at hresp
      simp only [getLoop, hresp]
      rw [if_pos ⟨h200, h300⟩]
      rfl
  | succ k ih =>
    intro r fuel hk h429 status body hresp h200 h300
    match fuel, hk with
    | fuel + 1, hk =>
      obtain ⟨b0, hb0⟩ := h429 0 (Nat.succ_pos k)
      rw [Nat.add_zero] at hb0
      simp only [getLoop, hb0]
      rw [if_true]
      have hrest : getLoop responses (r + 1) fuel = ⟨.ok body, k + 1, List.replicate k 60⟩ := by
        refine ih (r + 1) fuel (by omega) ?_ status body ?_ h200 h300
        · intro i hi
          obtain ⟨b, hb⟩ := h429 (i + 1) (by omega)
          exact ⟨b, by rw [show r + 1 + i = r + (i + 1) by omega]; exact hb⟩
        · rw [show r + 1 + k = r + (k + 1) by omega]; exact hresp
      rw [hrest]
      rfl

/-- Unrolling the retry loop through nothing but rate-limited attempts: the
loop exits and raises. -/
theorem getLoop_exhausted (responses : Nat → HttpResult) :
    ∀ (fuel r : Nat),
    (∀ i, i < fuel → ∃ b, responses (r + i) = .response 429 b) →
    getLoop responses r fuel
      = ⟨.error (.rateLimitExhausted (rate_limit_message max_retries)), fuel,
          List.replicate fuel 60⟩ := by
  intro fuel
  induction fuel with
  | zero => intro r _; rfl
  | succ fuel ih =>
    intro r h429
    obtain ⟨b0, hb0⟩ := h429 0 (Nat.succ_pos fuel)
    rw [Nat.add_zero] at hb0
    simp only [getLoop, hb0]
    rw [if_true]
    have hrest := ih (r + 1) (fun i hi => by
      obtain ⟨b, hb⟩ := h429 (i + 1) (by omega)
      exact ⟨b, by rw [show r + 1 + i = r + (i + 1) by omega]; exact hb⟩)
    rw [hrest]
    rfl

/-- **C2.** Through the transport layer's `_get`: if the first `k` responses
are HTTP 429 with `k < 5` and the next response is a 2xx success, the call
returns the parsed JSON payload after exactly `k` attempts' worth of fixed
60-second cooldown waits (so `k + 1` GET calls); if the first 5 responses are
all HTTP 429, it fails with the rate-limit-exhausted exception after exactly
5 attempts — never a 6th. -/
theorem c2_rate_limit_retry_policy (net : Network) (url : String)
    (params : List (String × String)) (k status : Nat) (body : Json) :
    (k < 5 →
      (∀ i, i < k → ∃ b, net url params i = .response 429 b) →
      net url params k = .response status body →
      200 ≤ status → status < 300 →
      _get net url params = ⟨.ok body, k + 1, List.replicate k 60⟩)
  ∧ ((∀ i, i < 5 → ∃ b, net url params i = .response 429 b) →
      _get net url params
        = ⟨.error (.rateLimitExhausted (rate_limit_message max_retries)), 5,
            List.replicate 5 60⟩) := by
  constructor
  · intro hk h429 hresp h200 h300
    have := getLoop_success (net url params) k 0 max_retries (by
      simpa [max_retries] using hk)
      (fun i hi => by simpa using h429 i hi) status body (by simpa using hresp) h200 h300
    simpa [_get] using this
  · intro h429
    have := getLoop_exhausted (net url params) max_retries 0
      (fun i hi => by simpa using h429 i (by simpa [max_retries] using hi))
    simpa [_get, max_retries] using this

/-- Witness for C2: two 429 responses then a 200 yield the payload after two
60-second waits and three attempts; five straight 429s yield the exhaustion
failure after exactly five attempts. -/
theorem c2_rate_limit_retry_policy_witness :
    _get (fun _ _ i => if i < 2 then .response 429 (.obj []) else .response 200 (.num 7))
        "https://na1.api.riotgames.com/x" []
      = ⟨.ok (.num 7), 3, [60, 60]⟩
  ∧ _get (fun _ _ _ => .response 429 (.obj [])) "https://na1.api.riotgames.com/x" []
      = ⟨.error (.rateLimitExhausted (rate_limit_message max_retries)), 5,
          List.replicate 5 60⟩ := by
  constructor
  · have := (c2_rate_limit_retry_policy
      (fun _ _ i => if i < 2 then .response 429 (.obj []) else .response 200 (.num 7))
      "https://na1.api.riotgames.com/x" [] 2 200 (.num 7)).1
      (by omega)
      (fun i hi => ⟨.obj [], by simp [hi]⟩)
      (by norm_num)
      (by omega) (by omega)
    simpa using this
  · exact (c2_rate_limit_retry_policy (fun _ _ _ => .response 429 (.obj []))
      "https://na1.api.riotgames.com/x" [] 0 0 (.obj [])).2
      (fun i _ => ⟨.obj [], rfl⟩)

/-- **C3, counterexample.** The claim says the exhaustion failure carries the
endpoint being requested.  It does not: two `_get` calls against different
endpoints (both rate-limited on every attempt) surface the *identical* failure
value — a generic `Exception` whose message names only the attempt count. -/
theorem c3_counterexample :
    (_get (fun _ _ _ => .response 429 (.obj []))
        "https://na1.api.riotgames.com/lol/summoner/v4/summoners/abc" []).result
      = (_get (fun _ _ _ => .response 429 (.obj []))
        "https://americas.api.riotgames.com/lol/match/v5/matches/NA1_1" []).result
  ∧ (_get (fun _ _ _ => .response 429 (.obj []))
        "https://na1.api.riotgames.com/lol/summoner/v4/summoners/abc" []).result
      = .error (.rateLimitExhausted "Rate limit exceeded after 5 retries") :=
  ⟨rfl, rfl⟩

/-- **C3, amended.** When the transport layer exhausts its retries on HTTP
429, the failure it surfaces is the raised `Exception` whose message carries
the attempt count (`max_retries = 5`) — but not the endpoint: the failure
value is the same whatever endpoint was being requested. -/
theorem c3_exhaustion_failure_content (net net' : Network) (url url' : String)
    (params params' : List (String × String))
    (h : ∀ i, i < 5 → ∃ b, net url params i = .response 429 b)
    (h' : ∀ i, i < 5 → ∃ b, net' url' params' i = .response 429 b) :
    (_get net url params).result
      = .error (.rateLimitExhausted (rate_limit_message max_retries))
  ∧ (_get net url params).attempts = max_retries
  ∧ rate_limit_message max_retries = "Rate limit exceeded after 5 retries"
  ∧ (_get net url params).result = (_get net' url' params').result := by
  have h1 := (c2_rate_limit_retry_policy net url params 0 0 (.obj [])).2 h
  have h2 := (c2_rate_limit_retry_policy net' url' params' 0 0 (.obj [])).2 h'
  refine ⟨by rw [h1], by rw [h1]; rfl, rfl, by rw [h1, h2]⟩

/-- Witness for the amended C3: concrete all-429 networks on two distinct
endpoints. -/
theorem c3_exhaustion_failure_content_witness :
    (_get (fun _ _ _ => .response 429 (.str "limited")) "endpoint-one" []).result
      = .error (.rateLimitExhausted (rate_limit_message max_retries))
  ∧ (_get (fun _ _ _ => .response 429 (.str "limited")) "endpoint-one" []).attempts
      = max_retries
  ∧ rate_limit_message max_retries = "Rate limit exceeded after 5 retries"
  ∧ (_get (fun _ _ _ => .response 429 (.str "limited")) "endpoint-one" []).result
      = (_get (fun _ _ _ => .response 429 (.num 0)) "endpoint-two" [("a", "b")]).result :=
  c3_exhaustion_failure_content
    (fun _ _ _ => .response 429 (.str "limited")) (fun _ _ _ => .response 429 (.num 0))
    "endpoint-one" "endpoint-two" [] [("a", "b")]
    (fun _ _ => ⟨.str "limited", rfl⟩) (fun _ _ => ⟨.num 0, rfl⟩)

/-- **C4.** Only HTTP 429 is ever retried: a response with any non-429
non-2xx status makes `_get` fail at once with the `httpx.HTTPStatusError`
(carrying the status and body) after exactly one GET call and zero cooldown
waits, and a transport-level error (timeout, connection failure) makes it
fail at once with that error after exactly one GET call and zero waits. -/
theorem c4_only_429_is_retried (net : Network) (url : String)
    (params : List (String × String)) (status : Nat) (body : Json)
    (cause : String) :
    (net url params 0 = .response status body →
      ¬(200 ≤ status ∧ status < 300) → status ≠ 429 →
      _get net url params = ⟨.error (.httpStatus status body), 1, []⟩)
  ∧ (net url params 0 = .transportError cause →
      _get net url params = ⟨.error (.transport cause), 1, []⟩) := by
  constructor
  · intro h0 hnot2xx hnot429
    show getLoop (net url params) 0 max_retries = _
    rw [show max_retries = 4 + 1 from rfl]
    simp only [getLoop, h0]
    rw [if_neg hnot2xx, if_neg hnot429]
  · intro h0
    show getLoop (net url params) 0 max_retries = _
    rw [show max_retries = 4 + 1 from rfl]
    simp only [getLoop, h0]

/-- Witness for C4: a 404 response fails immediately with the status failure;
a connection timeout fails immediately with the transport failure — one
attempt, no waits, in both cases. -/
theorem c4_only_429_is_retried_witness :
    _get (fun _ _ _ => .response 404 (.str "Not Found")) "https://na1.api.riotgames.com/y" []
      = ⟨.error (.httpStatus 404 (.str "Not Found")), 1, []⟩
  ∧ _get (fun _ _ _ => .transportError "ConnectTimeout") "https://na1.api.riotgames.com/y" []
      = ⟨.error (.transport "ConnectTimeout"), 1, []⟩ :=
  ⟨(c4_only_429_is_retried (fun _ _ _ => .response 404 (.str "Not Found"))
      "https://na1.api.riotgames.com/y" [] 404 (.str "Not Found") "").1
      rfl (by omega) (by omega),
   (c4_only_429_is_retried (fun _ _ _ => .transportError "ConnectTimeout")
      "https://na1.api.riotgames.com/y" [] 0 (.obj []) "ConnectTimeout").2 rfl⟩

/-! ## Fan-out/fan-in lemmas -/

/-- The first failure of a fan-out group, in task order. -/
def firstFailure {ε α : Type} : List (Except ε α) → Option ε
  | [] => none
  | .error e :: _ => some e
  | .ok _ :: rest => firstFailure rest

/-- A fan-out whose member calls all succeed returns all results, in task
order. -/
theorem gather_map_ok {ε α β : Type} (g : α → Except ε β) (f : α → β) :
    ∀ l : List α, (∀ x ∈ l, g x = .ok (f x)) →
    gather (l.map g) = .ok (l.map f) := by
  intro l
  induction l with
  | nil => intro _; rfl
  | cons x xs ih =>
    intro h
    have hx := h x (List.mem_cons_self x xs)
    have hrest := ih (fun y hy => h y (List.mem_cons_of_mem x hy))
    simp only [List.map_cons, gather, hx, hrest]

/-- A fan-out with a failing member fails with the group's first failure. -/
theorem gather_error {ε α : Type} (e : ε) :
    ∀ tasks : List (Except ε α), firstFailure tasks = some e →
    gather tasks = .error e := by
  intro tasks
  induction tasks with
  | nil => intro h; exact absurd h (by simp [firstFailure])
  | cons t rest ih =>
    intro h
    match t with
    | .error e' =>
      simp only [firstFailure, Option.some.injEq] at h
      simp [gather, h]
    | .ok a =>
      simp only [firstFailure] at h
      simp only [gather, ih h]

/-! ## Stable descending sort lemmas -/

/-- Membership in an insertion. -/
theorem mem_insertByPointsDesc (e y : LeagueEntry) :
    ∀ l : List LeagueEntry, y ∈ insertByPointsDesc e l ↔ y = e ∨ y ∈ l := by
  intro l
  induction l with
  | nil => simp [insertByPointsDesc]
  | cons x xs ih =>
    by_cases hle : x.league_points ≤ e.league_points
    · simp [insertByPointsDesc, hle]
    · simp only [insertByPointsDesc, if_neg hle, List.mem_cons, ih]
      tauto

/-- Insertion is a permutation of consing. -/
theorem insertByPointsDesc_perm (e : LeagueEntry) :
    ∀ l : List LeagueEntry, (insertByPointsDesc e l).Perm (e :: l) := by
  intro l
  induction l with
  | nil => exact List.Perm.refl _
  | cons x xs ih =>
    by_cases hle : x.league_points ≤ e.league_points
    · rw [insertByPointsDesc, if_pos hle]
    · rw [insertByPointsDesc, if_neg hle]
      exact (ih.cons x).trans (List.Perm.swap e x xs)

/-- The sort permutes its input (same entries, same multiplicities). -/
theorem sortedByPointsDesc_perm :
    ∀ l : List LeagueEntry, (sortedByPointsDesc l).Perm l := by
  intro l
  induction l with
  | nil => exact List.Perm.refl _
  | cons x xs ih =>
    exact (insertByPointsDesc_perm x (sortedByPointsDesc xs)).trans (ih.cons x)

/-- Insertion preserves the descending-by-points order. -/
theorem pairwise_insertByPointsDesc (e : LeagueEntry) :
    ∀ l : List LeagueEntry,
    l.Pairwise (fun a b => b.league_points ≤ a.league_points) →
    (insertByPointsDesc e l).Pairwise
      (fun a b => b.league_points ≤ a.league_points) := by
  intro l
  induction l with
  | nil => intro _; simp [insertByPointsDesc]
  | cons x xs ih =>
    intro h
    obtain ⟨hx, hxs⟩ := List.pairwise_cons.mp h
    by_cases hle : x.league_points ≤ e.league_points
    · rw [insertByPointsDesc, if_pos hle]
      refine List.pairwise_cons.mpr ⟨?_, h⟩
      intro y hy
      rcases List.mem_cons.mp hy with rfl | hy'
      · exact hle
      · exact le_trans (hx y hy') hle
    · rw [insertByPointsDesc, if_neg hle]
      refine List.pairwise_cons.mpr ⟨?_, ih hxs⟩
      intro y hy
      rcases (mem_insertByPointsDesc e y xs).mp hy with rfl | hy'
      · exact le_of_not_le hle
      · exact hx y hy'

/-- The sorted list is ordered by `league_points` descending. -/
theorem sortedByPointsDesc_pairwise :
    ∀ l : List LeagueEntry,
    (sortedByPointsDesc l).Pairwise
      (fun a b => b.league_points ≤ a.league_points) := by
  intro l
  induction l with
  | nil => simp [sortedByPointsDesc]
  | cons x xs ih => exact pairwise_insertByPointsDesc x (sortedByPointsDesc xs) ih

/-- Stability, one insertion: restricted to any fixed `league_points` value,
inserting puts the (originally earlier) new entry in front. -/
theorem filter_insertByPointsDesc (e : LeagueEntry) (p : Int) :
    ∀ l : List LeagueEntry,
    (insertByPointsDesc e l).filter (fun x => x.league_points = p)
      = if e.league_points = p
        then e :: l.filter (fun x => x.league_points = p)
        else l.filter (fun x => x.league_points = p) := by
  intro l
  induction l with
  | nil =>
    by_cases hep : e.league_points = p
    · simp [insertByPointsDesc, List.filter, hep]
    · simp [insertByPointsDesc, List.filter, hep]
  | cons x xs ih =>
    by_cases hle : x.league_points ≤ e.league_points
    · rw [insertByPointsDesc, if_pos hle]
      by_cases hep : e.league_points = p
      · simp [List.filter_cons, hep]
      · simp [List.filter_cons, hep]
    · rw [insertByPointsDesc, if_neg hle]
      by_cases hxp : x.league_points = p
      · by_cases hep : e.league_points = p
        · exact absurd (hep.trans hxp.symm) (by omega)
        · simp [List.filter_cons, hxp, hep, ih]
      · by_cases hep : e.league_points = p
        · simp [List.filter_cons, hxp, hep, ih]
        · simp [List.filter_cons, hxp, hep, ih]

/-- Stability of the whole sort: entries tied at any fixed `league_points`
value keep their original relative order. -/
theorem filter_sortedByPointsDesc (p : Int) :
    ∀ l : List LeagueEntry,
    (sortedByPointsDesc l).filter (fun x => x.league_points = p)
      = l.filter (fun x => x.league_points = p) := by
  intro l
  induction l with
  | nil => rfl
  | cons x xs ih =>
    rw [sortedByPointsDesc, filter_insertByPointsDesc]
    by_cases hxp : x.league_points = p
    · rw [if_pos hxp, ih, List.filter_cons, if_pos (by simpa using hxp)]
    · rw [if_neg hxp, ih, List.filter_cons, if_neg (by simpa using hxp)]

/-- **C1.** For every list of league entries the challenger-league endpoint
returned and every count, `get_top_players(count)` resolves and returns the
entries' summoners in the order of the entries sorted by `league_points`
descending — a stable sort (any fixed points value keeps its original
relative order) — truncated to the first `min count entries.length` entries,
the output mirroring that sorted/truncated entry order. -/
theorem c1_get_top_players_sorted_truncated (c : RiotApiClient) (net : Network)
    (count : Nat) (entries : List LeagueEntry) (f : LeagueEntry → Summoner)
    (hleague : get_challenger_league c net Queue.RANKED_SOLO = .ok entries)
    (hresolve : ∀ e ∈ (sortedByPointsDesc entries).take count,
      get_summoner_by_id c net e.summoner_id = .ok (f e)) :
    get_top_players c net count
      = .ok (((sortedByPointsDesc entries).take count).map f)
  ∧ ((sortedByPointsDesc entries).take count).Pairwise
      (fun a b => b.league_points ≤ a.league_points)
  ∧ (∀ p : Int, (sortedByPointsDesc entries).filter (fun e => e.league_points = p)
      = entries.filter (fun e => e.league_points = p))
  ∧ (sortedByPointsDesc entries).Perm entries
  ∧ ((sortedByPointsDesc entries).take count).length = min count entries.length := by
  refine ⟨?_, ?_, ?_, ?_, ?_⟩
  · simp only [get_top_players, hleague]
    exact gather_map_ok (fun e => get_summoner_by_id c net e.summoner_id) f
      ((sortedByPointsDesc entries).take count) hresolve
  · exact (sortedByPointsDesc_pairwise entries).sublist (List.take_sublist _ _)
  · exact fun p => filter_sortedByPointsDesc p entries
  · exact sortedByPointsDesc_perm entries
  · rw [List.length_take, (sortedByPointsDesc_perm entries).length_eq]

/-- The concrete network for the C1 witness scenario: the challenger league
holds entries with league points [900, 1200, 1200, 800], and the two tied
summoners resolve. -/
def c1Net : Network := fun url _ _ =>
  if url = "https://na1.api.riotgames.com/lol/league/v4/challengerleagues/by-queue/RANKED_SOLO_5x5" then
    .response 200 (.obj [("entries", .arr
      [.obj [("summonerId", .str "s900"), ("leaguePoints", .num 900)],
       .obj [("summonerId", .str "sA"), ("leaguePoints", .num 1200)],
       .obj [("summonerId", .str "sB"), ("leaguePoints", .num 1200)],
       .obj [("summonerId", .str "s800"), ("leaguePoints", .num 800)]])])
  else if url = "https://na1.api.riotgames.com/lol/summoner/v4/summoners/sA" then
    .response 200 (.obj [("id", .str "sA"), ("accountId", .str "accA"),
      ("puuid", .str "puA"), ("summonerLevel", .num 500)])
  else if url = "https://na1.api.riotgames.com/lol/summoner/v4/summoners/sB" then
    .response 200 (.obj [("id", .str "sB"), ("accountId", .str "accB"),
      ("puuid", .str "puB"), ("summonerLevel", .num 400)])
  else .transportError "unreachable"

/-- Witness for C1, the spec's scenario: league points [900, 1200, 1200, 800],
`get_top_players(2)` returns the two summoners tied at 1200 in their original
relative order, fully resolved to `Summoner` records. -/
theorem c1_get_top_players_sorted_truncated_witness :
    get_top_players ⟨"key", "na1", "americas", 10⟩ c1Net 2
      = .ok [⟨"sA", "accA", "puA", 500⟩, ⟨"sB", "accB", "puB", 400⟩] := by
  have h := (c1_get_top_players_sorted_truncated ⟨"key", "na1", "americas", 10⟩
    c1Net 2
    [⟨"s900", 900, 0, 0⟩, ⟨"sA", 1200, 0, 0⟩, ⟨"sB", 1200, 0, 0⟩, ⟨"s800", 800, 0, 0⟩]
    (fun e => if e.summoner_id = "sA" then ⟨"sA", "accA", "puA", 500⟩
      else ⟨"sB", "accB", "puB", 400⟩)
    rfl
    ?_).1
  · rw [h]; rfl
  · intro e he
    rw [show (sortedByPointsDesc
        [⟨"s900", 900, 0, 0⟩, ⟨"sA", 1200, 0, 0⟩, ⟨"sB", 1200, 0, 0⟩,
         (⟨"s800", 800, 0, 0⟩ : LeagueEntry)]).take 2
      = [⟨"sA", 1200, 0, 0⟩, ⟨"sB", 1200, 0, 0⟩] from rfl] at he
    rcases List.mem_cons.mp he with rfl | he'
    · rfl
    · rcases List.mem_cons.mp he' with rfl | he''
      · rfl
      · exact absurd he'' (List.not_mem_nil _)

/-! ## First-occurrence dedup lemmas -/

/-- The spec-side description of the dedup pass: retain the first occurrence
of each distinct element, in first-seen order (later occurrences removed). -/
def firstOccurrences {α : Type} [DecidableEq α] : List α → List α
  | [] => []
  | x :: xs => x :: (firstOccurrences xs).filter (fun y => y ≠ x)

/-- The append-if-absent fold (the shape of both `combine_matches`' loop and
`list(set(...))` modelled in first-occurrence order) computes
`firstOccurrences`, relative to the accumulator already seen. -/
theorem foldl_dedup_eq {α : Type} [DecidableEq α] :
    ∀ (l acc : List α),
    l.foldl (fun a x => if x ∈ a then a else a ++ [x]) acc
      = acc ++ (firstOccurrences l).filter (fun y => y ∉ acc) := by
  intro l
  induction l with
  | nil => intro acc; simp [firstOccurrences]
  | cons x xs ih =>
    intro acc
    simp only [List.foldl_cons]
    by_cases hx : x ∈ acc
    · rw [if_pos hx, ih acc]
      congr 1
      rw [firstOccurrences, List.filter_cons, if_neg (by simp [hx]),
        List.filter_filter]
      refine (List.filter_congr ?_).symm
      intro y _
      by_cases hy : y ∈ acc
      · simp [hy]
      · simp [hy]
        intro hyx
        exact absurd hx (hyx ▸ hy)
    · rw [if_neg hx, ih (acc ++ [x])]
      rw [firstOccurrences, List.filter_cons, if_pos (by simp [hx]),
        List.filter_filter, List.append_assoc]
      congr 1
      rw [List.singleton_append]
      congr 1
      refine List.filter_congr ?_
      intro y _
      by_cases hy : y ∈ acc
      · simp [hy]
      · by_cases hyx : y = x
        · simp [hyx]
        · simp [hy, hyx]

/-- `combine_matches` keeps exactly the first occurrence of each structurally
distinct match. -/
theorem combine_matches_eq_firstOccurrences (l : List Match) :
    combine_matches l = firstOccurrences l := by
  have h := foldl_dedup_eq l ([] : List Match)
  simpa [combine_matches] using h

/-- `pyListSet` keeps exactly one occurrence of each distinct string. -/
theorem pyListSet_eq_firstOccurrences (xs : List String) :
    pyListSet xs = firstOccurrences xs := by
  have h := foldl_dedup_eq xs ([] : List String)
  simpa [pyListSet] using h

/-- The retained list has no duplicates. -/
theorem firstOccurrences_nodup {α : Type} [DecidableEq α] :
    ∀ l : List α, (firstOccurrences l).Nodup := by
  intro l
  induction l with
  | nil => simp [firstOccurrences]
  | cons x xs ih =>
    rw [firstOccurrences]
    refine List.nodup_cons.mpr ⟨?_, ih.filter _⟩
    intro hx
    have := (List.mem_filter.mp hx).2
    simp at this

/-- The retained list is a sublist (first-seen order preserved). -/
theorem firstOccurrences_sublist {α : Type} [DecidableEq α] :
    ∀ l : List α, List.Sublist (firstOccurrences l) l := by
  intro l
  induction l with
  | nil => simp [firstOccurrences]
  | cons x xs ih =>
    rw [firstOccurrences]
    exact (List.Sublist.trans (List.filter_sublist _) ih).cons₂ x

/-- Exactly the input's elements are retained. -/
theorem mem_firstOccurrences {α : Type} [DecidableEq α] (y : α) :
    ∀ l : List α, y ∈ firstOccurrences l ↔ y ∈ l := by
  intro l
  induction l with
  | nil => simp [firstOccurrences]
  | cons x xs ih =>
    rw [firstOccurrences]
    by_cases hyx : y = x
    · subst hyx; simp
    · simp only [List.mem_cons, List.mem_filter, ih]
      constructor
      · rintro (rfl | ⟨hy, _⟩)
        · exact Or.inl rfl
        · exact Or.inr hy
      · rintro (rfl | hy)
        · exact Or.inl rfl
        · exact Or.inr ⟨hy, by simpa using hyx⟩

/-- A list without duplicates is already its own first-occurrence pass. -/
theorem firstOccurrences_eq_self {α : Type} [DecidableEq α] :
    ∀ l : List α, l.Nodup → firstOccurrences l = l := by
  intro l
  induction l with
  | nil => intro _; rfl
  | cons x xs ih =>
    intro h
    obtain ⟨hx, hxs⟩ := List.nodup_cons.mp h
    rw [firstOccurrences, ih hxs, List.filter_eq_self.mpr]
    intro y hy
    simp only [ne_eq, decide_eq_true_eq]
    intro hyx
    exact hx (hyx ▸ hy)

/-- **C6.** The caller-side dedup pass returns the sublist retaining exactly
the first occurrence of each structurally distinct `Match`, in first-seen
order, under full structural equality of every field (not `matchId` alone):
two identical `Match` values collapse to one, and two values differing in any
field are both retained. -/
theorem c6_combine_matches_first_occurrence (l : List Match) (m m' : Match) :
    combine_matches l = firstOccurrences l
  ∧ (combine_matches l).Nodup
  ∧ List.Sublist (combine_matches l) l
  ∧ (∀ x : Match, x ∈ combine_matches l ↔ x ∈ l)
  ∧ combine_matches [m, m] = [m]
  ∧ (m ≠ m' → combine_matches [m, m'] = [m, m']) := by
  refine ⟨combine_matches_eq_firstOccurrences l, ?_, ?_, ?_, ?_, ?_⟩
  · rw [combine_matches_eq_firstOccurrences]; exact firstOccurrences_nodup l
  · rw [combine_matches_eq_firstOccurrences]; exact firstOccurrences_sublist l
  · intro x
    rw [combine_matches_eq_firstOccurrences]
    exact mem_firstOccurrences x l
  · simp [combine_matches, List.foldl]
  · intro hne
    simp [combine_matches, List.foldl, Ne.symm hne]

/-- Two concrete matches identical except for `game_duration` (1800 vs 1900
seconds). -/
def c6MatchA : Match :=
  ⟨⟨2, "NA1_1", ["p1", "p2"]⟩,
   ⟨1700000000000, 1800, "CLASSIC", "MATCHED_GAME", "14.1.1", 11, []⟩⟩

/-- Same metadata as `c6MatchA`, `game_duration` differs. -/
def c6MatchB : Match :=
  ⟨⟨2, "NA1_1", ["p1", "p2"]⟩,
   ⟨1700000000000, 1900, "CLASSIC", "MATCHED_GAME", "14.1.1", 11, []⟩⟩

/-- Witness for C6: the two matches share their `matchId` but differ in one
field, so the pass keeps both; a genuine duplicate collapses to one. -/
theorem c6_combine_matches_first_occurrence_witness :
    c6MatchA ≠ c6MatchB
  ∧ combine_matches [c6MatchA, c6MatchB] = [c6MatchA, c6MatchB]
  ∧ combine_matches [c6MatchA, c6MatchA] = [c6MatchA] :=
  ⟨by decide,
   (c6_combine_matches_first_occurrence [c6MatchA, c6MatchB] c6MatchA c6MatchB).2.2.2.2.2
     (by decide),
   (c6_combine_matches_first_occurrence [c6MatchA, c6MatchA] c6MatchA c6MatchB).2.2.2.2.1⟩

/-- **C10.** The dedup pass is idempotent — applied to its own output it
returns it unchanged — and its output is a subsequence of its input with no
two structurally equal matches. -/
theorem c10_combine_matches_idempotent (l : List Match) :
    combine_matches (combine_matches l) = combine_matches l
  ∧ List.Sublist (combine_matches l) l
  ∧ (combine_matches l).Nodup := by
  refine ⟨?_, ?_, ?_⟩
  · rw [combine_matches_eq_firstOccurrences l,
      combine_matches_eq_firstOccurrences (firstOccurrences l)]
    exact firstOccurrences_eq_self _ (firstOccurrences_nodup l)
  · rw [combine_matches_eq_firstOccurrences]; exact firstOccurrences_sublist l
  · rw [combine_matches_eq_firstOccurrences]; exact firstOccurrences_nodup l

/-- **C5.** `get_matches_for_summoners` reduces the flattened match-ID lists
to the set of distinct ID strings before fetching detail, and issues exactly
one match-detail call per distinct ID (the detail fan-out maps over a
duplicate-free list containing exactly the IDs the summoners returned); for
ID lists {"A","B"} and {"B","C"} the detail endpoint is called exactly 3
times — for A, B and C — not 4. -/
theorem c5_dedup_match_ids (c : RiotApiClient) (net : Network)
    (summoners : List Summoner) (matches_per_summoner : Nat)
    (idLists : List (List String))
    (hids : gather (summoners.map (fun summoner =>
        get_match_ids_by_puuid c net summoner.puuid matches_per_summoner 0))
      = .ok idLists) :
    get_matches_for_summoners c net summoners matches_per_summoner
      = gather ((pyListSet idLists.flatten).map
          (fun match_id => get_match c net match_id))
  ∧ (pyListSet idLists.flatten).Nodup
  ∧ (∀ mid : String, mid ∈ pyListSet idLists.flatten ↔ ∃ l ∈ idLists, mid ∈ l)
  ∧ pyListSet (List.flatten [["A", "B"], ["B", "C"]]) = ["A", "B", "C"] := by
  refine ⟨?_, ?_, ?_, by decide⟩
  · simp only [get_matches_for_summoners, hids]
  · rw [pyListSet_eq_firstOccurrences]; exact firstOccurrences_nodup _
  · intro mid
    rw [pyListSet_eq_firstOccurrences, mem_firstOccurrences, List.mem_flatten]

/-- The concrete network for the C5 witness: two summoners whose match-ID
lists are ["A","B"] and ["B","C"]. -/
def c5Net : Network := fun url _ _ =>
  if url = "https://americas.api.riotgames.com/lol/match/v5/matches/by-puuid/pu1/ids" then
    .response 200 (.arr [.str "A", .str "B"])
  else if url = "https://americas.api.riotgames.com/lol/match/v5/matches/by-puuid/pu2/ids" then
    .response 200 (.arr [.str "B", .str "C"])
  else .transportError "unreachable"

/-- Witness for C5: with the two ID lists above, the detail fan-out runs over
exactly ["A", "B", "C"] — 3 calls, not 4. -/
theorem c5_dedup_match_ids_witness :
    get_matches_for_summoners ⟨"key", "na1", "americas", 10⟩ c5Net
        [⟨"id1", "acc1", "pu1", 1⟩, ⟨"id2", "acc2", "pu2", 2⟩] 5
      = gather ((pyListSet (List.flatten [["A", "B"], ["B", "C"]])).map
          (fun match_id => get_match ⟨"key", "na1", "americas", 10⟩ c5Net match_id))
  ∧ pyListSet (List.flatten [["A", "B"], ["B", "C"]]) = ["A", "B", "C"] := by
  have h := c5_dedup_match_ids ⟨"key", "na1", "americas", 10⟩ c5Net
    [⟨"id1", "acc1", "pu1", 1⟩, ⟨"id2", "acc2", "pu2", 2⟩] 5
    [["A", "B"], ["B", "C"]] rfl
  exact ⟨h.1, h.2.2.2⟩

/-! ## Round-trip (validate then dump) -/

/-- Field lookup on a JSON value (`none` on non-objects). -/
def Json.lookupField : Json → String → Option Json
  | .obj fields, k => fields.lookup k
  | _, _ => none

/-- `a` reproduces `b`'s key set and values exactly: the same keys are
present, and every key maps to the same value. -/
def objMappingEq (a b : Json) : Prop :=
  (∀ k, k ∈ a.objKeys ↔ k ∈ b.objKeys) ∧ ∀ k, a.lookupField k = b.lookupField k

/-- Looking up the head key. -/
theorem lookup_key_head {β : Type} (a : String) (b : β) (l : List (String × β)) :
    List.lookup a ((a, b) :: l) = some b := by
  simp [List.lookup]

/-- Looking up past a non-matching head key. -/
theorem lookup_key_tail {β : Type} {b : β} {l : List (String × β)} {a a' : String}
    (h : a ≠ a') : List.lookup a ((a', b) :: l) = List.lookup a l := by
  have hb : (a == a') = false := by simp [h]
  simp [List.lookup, hb]

/-- A key absent from an association list looks up to nothing. -/
theorem lookup_eq_none_of_not_mem_keys {β : Type} (k : String) :
    ∀ l : List (String × β), k ∉ l.map Prod.fst → l.lookup k = none := by
  intro l
  induction l with
  | nil => intro _; rfl
  | cons p xs ih =>
    obtain ⟨a, b⟩ := p
    intro h
    simp only [List.map_cons, List.mem_cons, not_or] at h
    rw [lookup_key_tail h.1]
    exact ih h.2

/-- A key present in an association list looks up to something. -/
theorem lookup_isSome_of_mem_keys {β : Type} (k : String) :
    ∀ l : List (String × β), k ∈ l.map Prod.fst → ∃ v, l.lookup k = some v := by
  intro l
  induction l with
  | nil => intro h; exact absurd h (List.not_mem_nil k)
  | cons p xs ih =>
    obtain ⟨a, b⟩ := p
    intro h
    by_cases hk : k = a
    · subst hk; exact ⟨b, lookup_key_head k b xs⟩
    · rw [lookup_key_tail hk]
      refine ih ?_
      simp only [List.map_cons, List.mem_cons] at h
      tauto

/-- Inversion of a successful required-string lookup. -/
theorem lookupStr_some {fields : List (String × Json)} {k s : String}
    (h : Json.lookupStr fields k = some s) :
    fields.lookup k = some (.str s) := by
  cases hl : fields.lookup k with
  | none => simp [Json.lookupStr, hl] at h
  | some v =>
    cases v with
    | str s' =>
      simp only [Json.lookupStr, hl, Option.some.injEq] at h
      rw [h]
    | num n => simp [Json.lookupStr, hl] at h
    | bool b => simp [Json.lookupStr, hl] at h
    | arr a => simp [Json.lookupStr, hl] at h
    | obj o => simp [Json.lookupStr, hl] at h

/-- Inversion of a successful required-integer lookup. -/
theorem lookupInt_some {fields : List (String × Json)} {k : String} {n : Int}
    (h : Json.lookupInt fields k = some n) :
    fields.lookup k = some (.num n) := by
  cases hl : fields.lookup k with
  | none => simp [Json.lookupInt, hl] at h
  | some v =>
    cases v with
    | num n' =>
      simp only [Json.lookupInt, hl, Option.some.injEq] at h
      rw [h]
    | str s => simp [Json.lookupInt, hl] at h
    | bool b => simp [Json.lookupInt, hl] at h
    | arr a => simp [Json.lookupInt, hl] at h
    | obj o => simp [Json.lookupInt, hl] at h

/-- Inversion of a defaulted-integer lookup whose key is actually present. -/
theorem lookupIntD_some_of_mem {fields : List (String × Json)} {k : String}
    {d n : Int} (hmem : k ∈ fields.map Prod.fst)
    (h : Json.lookupIntD fields k d = some n) :
    fields.lookup k = some (.num n) := by
  obtain ⟨v, hv⟩ := lookup_isSome_of_mem_keys k fields hmem
  cases v with
  | num n' =>
    simp only [Json.lookupIntD, hv, Option.some.injEq] at h
    rw [hv, h]
  | str s => simp [Json.lookupIntD, hv] at h
  | bool b => simp [Json.lookupIntD, hv] at h
  | arr a => simp [Json.lookupIntD, hv] at h
  | obj o => simp [Json.lookupIntD, hv] at h

/-- What a successful `LeagueEntry.model_validate` says about the response
object, given that the defaulted keys are actually present. -/
theorem leagueEntry_validate_lookups {fields : List (String × Json)}
    {e : LeagueEntry}
    (hwins : "wins" ∈ fields.map Prod.fst)
    (hlosses : "losses" ∈ fields.map Prod.fst)
    (h : LeagueEntry.model_validate (.obj fields) = some e) :
    fields.lookup "summonerId" = some (.str e.summoner_id)
  ∧ fields.lookup "leaguePoints" = some (.num e.league_points)
  ∧ fields.lookup "wins" = some (.num e.wins)
  ∧ fields.lookup "losses" = some (.num e.losses) := by
  simp only [LeagueEntry.model_validate] at h
  split at h
  · rename_i s lp w l hs hlp hw hl
    obtain rfl := Option.some.inj h
    exact ⟨lookupStr_some hs, lookupInt_some hlp,
      lookupIntD_some_of_mem hwins hw, lookupIntD_some_of_mem hlosses hl⟩
  · simp at h

/-- What a successful `Summoner.model_validate` says about the response
object. -/
theorem summoner_validate_lookups {fields : List (String × Json)}
    {s : Summoner}
    (h : Summoner.model_validate (.obj fields) = some s) :
    fields.lookup "id" = some (.str s.id)
  ∧ fields.lookup "accountId" = some (.str s.account_id)
  ∧ fields.lookup "puuid" = some (.str s.puuid)
  ∧ fields.lookup "summonerLevel" = some (.num s.summoner_level) := by
  simp only [Summoner.model_validate] at h
  split at h
  · rename_i i a p lv hi ha hp hlv
    obtain rfl := Option.some.inj h
    exact ⟨lookupStr_some hi, lookupStr_some ha, lookupStr_some hp,
      lookupInt_some hlv⟩
  · simp at h

/-- **C7, counterexample.** A challenger-league entry response that omits the
defaulted keys `wins`/`losses` decodes successfully (the defaults fill in),
but re-serializing with the wire aliases emits those keys, so the original
key set is *not* reproduced: the round-trip claim fails for this successfully
decoded response. -/
theorem c7_counterexample :
    LeagueEntry.model_validate
        (.obj [("summonerId", .str "s1"), ("leaguePoints", .num 100)])
      = some ⟨"s1", 100, 0, 0⟩
  ∧ "wins" ∈ (LeagueEntry.model_dump ⟨"s1", 100, 0, 0⟩).objKeys
  ∧ "wins" ∉ (Json.obj [("summonerId", .str "s1"), ("leaguePoints", .num 100)]).objKeys
  ∧ ¬ objMappingEq
      (LeagueEntry.model_dump ⟨"s1", 100, 0, 0⟩)
      (.obj [("summonerId", .str "s1"), ("leaguePoints", .num 100)]) := by
  refine ⟨rfl, by decide, by decide, ?_⟩
  intro hcontra
  exact absurd ((hcontra.1 "wins").mp (by decide)) (by decide)

/-- **C7, amended.** For a response whose key set is exactly the model's
aliased field set (so no extra keys, which pydantic would drop, and no
omitted default-valued keys, which `model_dump` would add back) and whose
values have the declared wire types, decoding and re-serializing with
`by_alias=True` reproduces the original key set and values exactly; shown
for `LeagueEntry` and `Summoner`. -/
theorem c7_round_trip_exact_keys (fields : List (String × Json))
    (e : LeagueEntry) (s : Summoner) :
    (LeagueEntry.model_validate (.obj fields) = some e →
      (fields.map Prod.fst).Perm ["summonerId", "leaguePoints", "wins", "losses"] →
      objMappingEq (LeagueEntry.model_dump e) (.obj fields))
  ∧ (Summoner.model_validate (.obj fields) = some s →
      (fields.map Prod.fst).Perm ["id", "accountId", "puuid", "summonerLevel"] →
      objMappingEq (Summoner.model_dump s) (.obj fields)) := by
  constructor
  · intro hv hperm
    have hwins : "wins" ∈ fields.map Prod.fst :=
      hperm.mem_iff.mpr (by decide)
    have hlosses : "losses" ∈ fields.map Prod.fst :=
      hperm.mem_iff.mpr (by decide)
    obtain ⟨h1, h2, h3, h4⟩ := leagueEntry_validate_lookups hwins hlosses hv
    constructor
    · intro k
      show k ∈ ["summonerId", "leaguePoints", "wins", "losses"]
        ↔ k ∈ fields.map Prod.fst
      exact (hperm.mem_iff).symm
    · intro k
      by_cases hk1 : k = "summonerId"
      · subst hk1; exact h1.symm
      · by_cases hk2 : k = "leaguePoints"
        · subst hk2; exact h2.symm
        · by_cases hk3 : k = "wins"
          · subst hk3; exact h3.symm
          · by_cases hk4 : k = "losses"
            · subst hk4; exact h4.symm
            · have hnone : fields.lookup k = none := by
                refine lookup_eq_none_of_not_mem_keys k fields (fun hmem => ?_)
                have hmem' := hperm.mem_iff.mp hmem
                simp only [List.mem_cons, List.not_mem_nil, or_false] at hmem'
                tauto
              have hd : Json.lookupField (LeagueEntry.model_dump e) k = none := by
                show List.lookup k _ = none
                rw [lookup_key_tail hk1, lookup_key_tail hk2,
                  lookup_key_tail hk3, lookup_key_tail hk4]
                rfl
              rw [hd]
              show _ = fields.lookup k
              rw [hnone]
  · intro hv hperm
    obtain ⟨h1, h2, h3, h4⟩ := summoner_validate_lookups hv
    constructor
    · intro k
      show k ∈ ["id", "accountId", "puuid", "summonerLevel"]
        ↔ k ∈ fields.map Prod.fst
      exact (hperm.mem_iff).symm
    · intro k
      by_cases hk1 : k = "id"
      · subst hk1; exact h1.symm
      · by_cases hk2 : k = "accountId"
        · subst hk2; exact h2.symm
        · by_cases hk3 : k = "puuid"
          · subst hk3; exact h3.symm
          · by_cases hk4 : k = "summonerLevel"
            · subst hk4; exact h4.symm
            · have hnone : fields.lookup k = none := by
                refine lookup_eq_none_of_not_mem_keys k fields (fun hmem => ?_)
                have hmem' := hperm.mem_iff.mp hmem
                simp only [List.mem_cons, List.not_mem_nil, or_false] at hmem'
                tauto
              have hd : Json.lookupField (Summoner.model_dump s) k = none := by
                show List.lookup k _ = none
                rw [lookup_key_tail hk1, lookup_key_tail hk2,
                  lookup_key_tail hk3, lookup_key_tail hk4]
                rfl
              rw [hd]
              show _ = fields.lookup k
              rw [hnone]

/-- A league-entry response with all four aliased keys, in a different key
order than the model declares. -/
def c7LeagueFields : List (String × Json) :=
  [("leaguePoints", .num 1200), ("summonerId", .str "abc"),
   ("losses", .num 3), ("wins", .num 7)]

/-- A summoner response with all four aliased keys, reordered. -/
def c7SummonerFields : List (String × Json) :=
  [("puuid", .str "p1"), ("id", .str "i1"),
   ("summonerLevel", .num 30), ("accountId", .str "a1")]

/-- Witness for the amended C7: both responses decode and round-trip to the
same key set and values. -/
theorem c7_round_trip_exact_keys_witness :
    LeagueEntry.model_validate (.obj c7LeagueFields) = some ⟨"abc", 1200, 7, 3⟩
  ∧ objMappingEq (LeagueEntry.model_dump ⟨"abc", 1200, 7, 3⟩) (.obj c7LeagueFields)
  ∧ Summoner.model_validate (.obj c7SummonerFields) = some ⟨"i1", "a1", "p1", 30⟩
  ∧ objMappingEq (Summoner.model_dump ⟨"i1", "a1", "p1", 30⟩) (.obj c7SummonerFields) := by
  refine ⟨rfl, ?_, rfl, ?_⟩
  · exact (c7_round_trip_exact_keys c7LeagueFields ⟨"abc", 1200, 7, 3⟩
      ⟨"i1", "a1", "p1", 30⟩).1 rfl (by decide)
  · exact (c7_round_trip_exact_keys c7SummonerFields ⟨"abc", 1200, 7, 3⟩
      ⟨"i1", "a1", "p1", 30⟩).2 rfl (by decide)

/-- A first-attempt 2xx response returns its payload immediately. -/
theorem _get_ok_first (net : Network) (url : String)
    (params : List (String × String)) (status : Nat) (body : Json)
    (h0 : net url params 0 = .response status body)
    (h200 : 200 ≤ status) (h300 : status < 300) :
    _get net url params = ⟨.ok body, 1, []⟩ := by
  have h := getLoop_success (net url params) 0 0 max_retries (by simp [max_retries])
    (fun i hi => absurd hi (Nat.not_lt_zero i)) status body (by simpa using h0)
    h200 h300
  simpa [_get] using h

/-- **C9.** When the challenger-league endpoint returns a JSON object without
an "entries" key, `get_challenger_league` returns the empty list — it does
not fail with a decode error (`data.get("entries", [])` supplies the empty
default, and only entries actually present are validated) — and hence
`get_top_players` returns the empty summoner list for every count. -/
theorem c9_missing_entries_key (c : RiotApiClient) (net : Network) (count : Nat)
    (fields : List (String × Json))
    (hresp : net ("https://" ++ c.region ++
        ".api.riotgames.com/lol/league/v4/challengerleagues/by-queue/" ++
        Queue.RANKED_SOLO) [] 0
      = .response 200 (.obj fields))
    (hmissing : "entries" ∉ fields.map Prod.fst) :
    get_challenger_league c net Queue.RANKED_SOLO = .ok []
  ∧ get_top_players c net count = .ok [] := by
  have hlookup : fields.lookup "entries" = none :=
    lookup_eq_none_of_not_mem_keys "entries" fields hmissing
  have hleague : get_challenger_league c net Queue.RANKED_SOLO = .ok [] := by
    simp only [get_challenger_league,
      _get_ok_first net _ [] 200 (.obj fields) hresp (by omega) (by omega),
      Json.dictGetD, hlookup]
    rfl
  refine ⟨hleague, ?_⟩
  simp only [get_top_players, hleague]
  rw [show sortedByPointsDesc [] = [] from rfl, List.take_nil]
  rfl

/-- Witness for C9: a challenger-league payload holding only a "tier" key
yields the empty entry list and an empty top-player list. -/
theorem c9_missing_entries_key_witness :
    get_challenger_league ⟨"key", "na1", "americas", 10⟩
        (fun _ _ _ => .response 200 (.obj [("tier", .str "CHALLENGER")]))
        Queue.RANKED_SOLO
      = .ok []
  ∧ get_top_players ⟨"key", "na1", "americas", 10⟩
        (fun _ _ _ => .response 200 (.obj [("tier", .str "CHALLENGER")])) 3
      = .ok [] :=
  c9_missing_entries_key ⟨"key", "na1", "americas", 10⟩
    (fun _ _ _ => .response 200 (.obj [("tier", .str "CHALLENGER")])) 3
    [("tier", .str "CHALLENGER")] rfl (by decide)

/-- **C8.** Every concurrent fan-out group (summoner resolution in
`get_top_players`; match-ID fetch and match-detail fetch in
`get_matches_for_summoners`) is awaited together: if any member call fails,
the whole operation fails with the group's first failure and no partial
results are returned; if every member succeeds, the operation returns all
results. -/
theorem c8_fan_out_first_failure (c : RiotApiClient) (net : Network)
    (count : Nat) (entries : List LeagueEntry) (f : LeagueEntry → Summoner)
    (summoners : List Summoner) (mps : Nat) (idLists : List (List String))
    (fm : String → Match) (err : ClientError) :
    (get_challenger_league c net Queue.RANKED_SOLO = .ok entries →
      firstFailure (((sortedByPointsDesc entries).take count).map (fun e =>
        get_summoner_by_id c net e.summoner_id)) = some err →
      get_top_players c net count = .error err)
  ∧ (get_challenger_league c net Queue.RANKED_SOLO = .ok entries →
      (∀ e ∈ (sortedByPointsDesc entries).take count,
        get_summoner_by_id c net e.summoner_id = .ok (f e)) →
      get_top_players c net count
        = .ok (((sortedByPointsDesc entries).take count).map f))
  ∧ (firstFailure (summoners.map (fun s =>
        get_match_ids_by_puuid c net s.puuid mps 0)) = some err →
      get_matches_for_summoners c net summoners mps = .error err)
  ∧ (gather (summoners.map (fun s => get_match_ids_by_puuid c net s.puuid mps 0))
        = .ok idLists →
      firstFailure ((pyListSet idLists.flatten).map
        (fun mid => get_match c net mid)) = some err →
      get_matches_for_summoners c net summoners mps = .error err)
  ∧ (gather (summoners.map (fun s => get_match_ids_by_puuid c net s.puuid mps 0))
        = .ok idLists →
      (∀ mid ∈ pyListSet idLists.flatten, get_match c net mid = .ok (fm mid)) →
      get_matches_for_summoners c net summoners mps
        = .ok ((pyListSet idLists.flatten).map fm)) := by
  refine ⟨?_, ?_, ?_, ?_, ?_⟩
  · intro hleague hfail
    simp only [get_top_players, hleague]
    exact gather_error err _ hfail
  · intro hleague hok
    simp only [get_top_players, hleague]
    exact gather_map_ok _ f _ hok
  · intro hfail
    have hg := gather_error err _ hfail
    simp only [get_matches_for_summoners, hg]
  · intro hids hfail
    simp only [get_matches_for_summoners, hids]
    exact gather_error err _ hfail
  · intro hids hok
    simp only [get_matches_for_summoners, hids]
    exact gather_map_ok _ fm _ hok

/-- C8 witness network: challenger league with one entry; summoner resolution
fails with 404. -/
def c8NetA : Network := fun url _ _ =>
  if url = "https://na1.api.riotgames.com/lol/league/v4/challengerleagues/by-queue/RANKED_SOLO_5x5" then
    .response 200 (.obj [("entries",
      .arr [.obj [("summonerId", .str "s1"), ("leaguePoints", .num 100)]])])
  else .response 404 (.str "not found")

/-- C8 witness network: challenger league with one entry; summoner resolution
succeeds. -/
def c8NetB : Network := fun url _ _ =>
  if url = "https://na1.api.riotgames.com/lol/league/v4/challengerleagues/by-queue/RANKED_SOLO_5x5" then
    .response 200 (.obj [("entries",
      .arr [.obj [("summonerId", .str "s1"), ("leaguePoints", .num 100)]])])
  else .response 200 (.obj [("id", .str "s1"), ("accountId", .str "a1"),
    ("puuid", .str "pu1"), ("summonerLevel", .num 50)])

/-- C8 witness network: the match-ID fetch itself fails with 404. -/
def c8NetC : Network := fun _ _ _ => .response 404 (.str "nf")

/-- C8 witness network: match IDs arrive, the match-detail fetch fails
with 500. -/
def c8NetD : Network := fun url _ _ =>
  if url = "https://americas.api.riotgames.com/lol/match/v5/matches/by-puuid/pu1/ids" then
    .response 200 (.arr [.str "M1"])
  else .response 500 (.str "err")

/-- The match value behind the C8 all-success scenario. -/
def c8Match : Match :=
  ⟨⟨2, "M1", ["pu1"]⟩,
   ⟨1700000000000, 1800, "CLASSIC", "MATCHED_GAME", "14.1.1", 11, []⟩⟩

/-- C8 witness network: match IDs and match detail both succeed. -/
def c8NetE : Network := fun url _ _ =>
  if url = "https://americas.api.riotgames.com/lol/match/v5/matches/by-puuid/pu1/ids" then
    .response 200 (.arr [.str "M1"])
  else .response 200 (.obj [
    ("metadata", .obj [("dataVersion", .num 2), ("matchId", .str "M1"),
      ("participants", .arr [.str "pu1"])]),
    ("info", .obj [("gameCreation", .num 1700000000000),
      ("gameDuration", .num 1800), ("gameMode", .str "CLASSIC"),
      ("gameType", .str "MATCHED_GAME"), ("gameVersion", .str "14.1.1"),
      ("mapId", .num 11), ("participants", .arr [])])])

/-- Witness for C8: a failing member aborts each fan-out group with that
failure (no partial results), and all-success groups return all results. -/
theorem c8_fan_out_first_failure_witness :
    get_top_players ⟨"key", "na1", "americas", 10⟩ c8NetA 1
      = .error (.get (.httpStatus 404 (.str "not found")))
  ∧ get_top_players ⟨"key", "na1", "americas", 10⟩ c8NetB 1
      = .ok [⟨"s1", "a1", "pu1", 50⟩]
  ∧ get_matches_for_summoners ⟨"key", "na1", "americas", 10⟩ c8NetC
      [⟨"s1", "a1", "pu1", 50⟩] 5 = .error (.get (.httpStatus 404 (.str "nf")))
  ∧ get_matches_for_summoners ⟨"key", "na1", "americas", 10⟩ c8NetD
      [⟨"s1", "a1", "pu1", 50⟩] 5 = .error (.get (.httpStatus 500 (.str "err")))
  ∧ get_matches_for_summoners ⟨"key", "na1", "americas", 10⟩ c8NetE
      [⟨"s1", "a1", "pu1", 50⟩] 5 = .ok [c8Match] := by
  refine ⟨?_, ?_, ?_, ?_, ?_⟩
  · exact (c8_fan_out_first_failure ⟨"key", "na1", "americas", 10⟩ c8NetA 1
      [⟨"s1", 100, 0, 0⟩] (fun _ => ⟨"s1", "a1", "pu1", 50⟩) [] 5 []
      (fun _ => c8Match) (.get (.httpStatus 404 (.str "not found")))).1 rfl rfl
  · have h := (c8_fan_out_first_failure ⟨"key", "na1", "americas", 10⟩ c8NetB 1
      [⟨"s1", 100, 0, 0⟩] (fun _ => ⟨"s1", "a1", "pu1", 50⟩) [] 5 []
      (fun _ => c8Match) (.get (.httpStatus 404 (.str "not found")))).2.1 rfl ?_
    · exact h
    · intro e he
      rw [show (sortedByPointsDesc [(⟨"s1", 100, 0, 0⟩ : LeagueEntry)]).take 1
        = [⟨"s1", 100, 0, 0⟩] from rfl] at he
      obtain rfl := List.mem_singleton.mp he
      rfl
  · exact (c8_fan_out_first_failure ⟨"key", "na1", "americas", 10⟩ c8NetC 1
      [] (fun _ => ⟨"s1", "a1", "pu1", 50⟩) [⟨"s1", "a1", "pu1", 50⟩] 5 []
      (fun _ => c8Match) (.get (.httpStatus 404 (.str "nf")))).2.2.1 rfl
  · exact (c8_fan_out_first_failure ⟨"key", "na1", "americas", 10⟩ c8NetD 1
      [] (fun _ => ⟨"s1", "a1", "pu1", 50⟩) [⟨"s1", "a1", "pu1", 50⟩] 5 [["M1"]]
      (fun _ => c8Match) (.get (.httpStatus 500 (.str "err")))).2.2.2.1 rfl rfl
  · have h := (c8_fan_out_first_failure ⟨"key", "na1", "americas", 10⟩ c8NetE 1
      [] (fun _ => ⟨"s1", "a1", "pu1", 50⟩) [⟨"s1", "a1", "pu1", 50⟩] 5 [["M1"]]
      (fun _ => c8Match) (.get (.httpStatus 500 (.str "err")))).2.2.2.2 rfl ?_
    · exact h
    · intro mid hmid
      rw [show pyListSet (List.flatten [["M1"]]) = ["M1"] from rfl] at hmid
      obtain rfl := List.mem_singleton.mp hmid
      rfl
